import Mathlib

/-!
Verification of the media ingestion and transcription request pipeline
(`main.py` of the transcript-generation service).

The pipeline is shallowly embedded: pure Python helpers become Lean
functions on `String`/`List Char`/`Nat`/`ℚ`, the HTTP handlers become
functions from an explicit input record (model readiness, declared
filename, staged byte size, remote-response data, engine outcome) to a
result record that tracks the HTTP-level outcome together with the
on-disk artifact lifecycle (created / still present after the handler
returns) and the number of engine invocations.
-/

namespace Transcribe

/-! ## String helpers mirroring the Python standard library -/

/-- Split a character list on a separator character, keeping empty pieces,
mirroring Python `str.split(sep)` for a one-character separator. -/
def splitChar (sep : Char) : List Char → List (List Char)
  | [] => [[]]
  | c :: rest =>
    match splitChar sep rest with
    | [] => [[c]]
    | g :: gs => if c = sep then [] :: g :: gs else (c :: g) :: gs

/-- Index of the last occurrence of a character, mirroring `str.rfind`. -/
def rfindIdx (t : Char) : List Char → Option Nat
  | [] => none
  | c :: rest =>
    match rfindIdx t rest with
    | some i => some (i + 1)
    | none => if c = t then some 0 else none

/-- The final component of a path as `pathlib.PurePosixPath(...).name`:
empty and `"."` components are dropped, the last remaining component is
the name (empty when none remains). -/
def pathFinalName (s : String) : List Char :=
  ((splitChar '/' s.toList).filter (fun comp => comp ≠ [] ∧ comp ≠ ['.'])).getLastD []

/-- `pathlib` suffix of a bare name: the part of `name` from the last dot
on, provided that dot is neither the first nor the last character. -/
def nameSuffix (name : List Char) : List Char :=
  match rfindIdx '.' name with
  | some i => if 0 < i ∧ i < name.length - 1 then name.drop i else []
  | none => []

/-- `pathlib.Path(filename).suffix`. -/
def pySuffix (filename : String) : String :=
  String.mk (nameSuffix (pathFinalName filename))

/-- ASCII lower-casing of a string, as Python `str.lower()` acts on the
ASCII extension strings involved here. -/
def strToLower (s : String) : String :=
  String.mk (s.toList.map Char.toLower)

/-- `os.path.basename` on a POSIX path: everything after the last slash. -/
def pyBasename (p : String) : String :=
  String.mk ((splitChar '/' p.toList).getLastD [])

/-- Whether `needle` is an initial segment of `hay`. -/
def startsWithSeq : List Char → List Char → Bool
  | [], _ => true
  | _ :: _, [] => false
  | a :: as, b :: bs => a = b && startsWithSeq as bs

/-- Whether `needle` occurs inside `hay`, mirroring Python `needle in hay`
for nonempty `needle`. -/
def containsSeq (needle : List Char) : List Char → Bool
  | [] => needle.isEmpty
  | c :: rest => startsWithSeq needle (c :: rest) || containsSeq needle rest

/-- The characters of `hay` before the first occurrence of `needle`
(`hay` itself when `needle` does not occur). -/
def upToNext (needle : List Char) : List Char → List Char
  | [] => []
  | c :: rest => if startsWithSeq needle (c :: rest) then [] else c :: upToNext needle rest

/-- Python `hay.split(needle)[1]`: the piece between the first occurrence
of `needle` and the following one (or the end). -/
def afterFirstSeq (needle : List Char) : List Char → List Char
  | [] => []
  | c :: rest =>
    if startsWithSeq needle (c :: rest) then upToNext needle ((c :: rest).drop needle.length)
    else afterFirstSeq needle rest

/-- Python `s in t` on strings (for nonempty `s`). -/
def strContains (hay needle : String) : Bool :=
  containsSeq needle.toList hay.toList

/-- Python `c in s` for a single character. -/
def strHasChar (s : String) (c : Char) : Bool :=
  s.toList.contains c

/-- Python `t.split(s)[1]` on strings. -/
def strAfterFirst (hay needle : String) : String :=
  String.mk (afterFirstSeq needle.toList hay.toList)

/-- Python `s.strip(chr)` for the double-quote character: remove all leading
and trailing `"` characters. -/
def stripQuotes (s : String) : String :=
  String.mk (((s.toList.dropWhile (· = '"')).reverse.dropWhile (· = '"')).reverse)

/-- Python whitespace characters relevant to `str.strip()` (ASCII). -/
def isPySpace (c : Char) : Bool :=
  c = ' ' || c = '\t' || c = '\n' || c = '\r' || c = Char.ofNat 11 || c = Char.ofNat 12

/-- Python `s.strip()`: remove leading and trailing whitespace. -/
def pyStrip (s : String) : String :=
  String.mk (((s.toList.dropWhile isPySpace).reverse.dropWhile isPySpace).reverse)

/-! ## MediaClassifier (`AUDIO_EXTENSIONS`, `VIDEO_EXTENSIONS`, `get_file_type`) -/

/-- The audio extension table of `main.py`. -/
def AUDIO_EXTENSIONS : List String :=
  [".mp3", ".wav", ".m4a", ".flac", ".ogg", ".aac", ".opus", ".wma"]

/-- The video extension table of `main.py`. -/
def VIDEO_EXTENSIONS : List String :=
  [".mp4", ".avi", ".mov", ".mkv", ".webm", ".m4v", ".3gp", ".flv", ".wmv"]

/-- `get_file_type`: classify a filename by the lower-cased final path
suffix against the two extension tables. -/
def get_file_type (filename : String) : String :=
  let ext := strToLower (pySuffix filename)
  if ext ∈ AUDIO_EXTENSIONS then "audio"
  else if ext ∈ VIDEO_EXTENSIONS then "video"
  else "unknown"

example : pySuffix "a/B.MP3" = ".MP3" := by decide
example : pySuffix ".bashrc" = "" := by decide
example : pySuffix "file." = "" := by decide
example : get_file_type "dir/Song.MP3" = "audio" := by decide
example : get_file_type "clip.MKV" = "video" := by decide
example : get_file_type "" = "unknown" := by decide
example : get_file_type "notes.txt" = "unknown" := by decide

/-! ## Engine results and the TranscriptionDispatcher result shape -/

deriving instance DecidableEq for Except

/-- One segment of raw engine output; `avg_logprob` is `none` when the
segment dictionary lacks the key (Python `segment.get("avg_logprob", 0)`
then substitutes `0`). Log-probabilities are modelled as exact rationals. -/
structure EngineSegment where
  avg_logprob : Option ℚ
  deriving DecidableEq

/-- Raw engine result `{text, language, segments}`; `language = none` when
the key is missing, `segments = none` when the `"segments"` key is missing. -/
structure EngineResult where
  text : String
  language : Option String
  segments : Option (List EngineSegment)
  deriving DecidableEq

/-- The confidence derivation of `transcribe_media` / `transcribe_from_url`
(lines 303–309 and 405–410 of `main.py`): `None` unless `"segments"` is
present and non-empty, else the mean of `segment.get("avg_logprob", 0)`. -/
def computeConfidence : Option (List EngineSegment) → Option ℚ
  | none => none
  | some [] => none
  | some (s :: rest) =>
    let confidences := ((s :: rest).map (fun seg => seg.avg_logprob.getD 0))
    some (confidences.sum / confidences.length)

/-- The successful response body constructed by both handlers. -/
structure Response where
  text : String
  language : String
  confidence : Option ℚ
  file_type : String
  source : String
  deriving DecidableEq

/-! ## Upload pipeline (`transcribe_media`) -/

/-- Ceiling for upload staging: 500 MB for video, 100 MB for audio
(line 265 of `main.py`). -/
def uploadMaxSize (file_type : String) : Nat :=
  if file_type = "video" then 500 * 1024 * 1024 else 100 * 1024 * 1024

/-- Input of one `POST /transcribe/` invocation: whether the global model
is loaded, the upload's declared filename (`""` models an absent/falsy
filename), whether `shutil.copyfileobj` raises while filling the staged
temp file, the staged byte length on a successful copy, and the engine
outcome (`Except.error` models `model.transcribe` raising). -/
structure UploadInput where
  modelLoaded : Bool
  filename : String
  copyFails : Bool
  fileSize : Nat
  engine : Except String EngineResult
  deriving DecidableEq

/-- Result of a handler invocation: the HTTP outcome (error status code or
response body), whether a staged temp file was created on disk, whether
its path still exists on disk after the handler returns, and how many
times the engine was invoked. -/
structure RunResult where
  response : Except Nat Response
  artifactCreated : Bool
  artifactRemains : Bool
  engineCalls : Nat
  deriving DecidableEq

/-- Result of the `try` body of `transcribe_media` before its `finally`
block runs: `pathRecorded` is whether `temp_media_path` was assigned
(which happens only after `copyfileobj` succeeds, line 278). -/
structure UploadBodyResult where
  response : Except Nat Response
  artifactCreated : Bool
  pathRecorded : Bool
  engineCalls : Nat
  deriving DecidableEq

/-- The `try` body of `transcribe_media` (lines 250–324 of `main.py`):
model check, filename check, classification, staging via a named temp
file, post-write size check, engine dispatch, response construction. -/
def transcribe_media_body (inp : UploadInput) : UploadBodyResult :=
  if !inp.modelLoaded then ⟨.error 503, false, false, 0⟩
  else if inp.filename = "" then ⟨.error 400, false, false, 0⟩
  else
    let file_type := get_file_type inp.filename
    if file_type = "unknown" then ⟨.error 400, false, false, 0⟩
    else
      -- tempfile.NamedTemporaryFile(delete=False) creates the file on disk;
      -- temp_media_path is assigned only after copyfileobj returns.
      if inp.copyFails then ⟨.error 500, true, false, 0⟩
      else if inp.fileSize > uploadMaxSize file_type then ⟨.error 413, true, true, 0⟩
      else
        match inp.engine with
        | .error _ => ⟨.error 500, true, true, 1⟩
        | .ok r =>
          ⟨.ok { text := pyStrip r.text
                 language := r.language.getD "unknown"
                 confidence := computeConfidence r.segments
                 file_type := file_type
                 source := "upload" }, true, true, 1⟩

/-- `transcribe_media` with its `finally` block (lines 325–332): the temp
file is removed iff `temp_media_path` was assigned and the path exists. -/
def transcribe_media (inp : UploadInput) : RunResult :=
  let b := transcribe_media_body inp
  { response := b.response
    artifactCreated := b.artifactCreated
    artifactRemains := b.artifactCreated && !b.pathRecorded
    engineCalls := b.engineCalls }

/-- `transcribe_audio_legacy` (`POST /transcribe/audio/`, lines 335–338):
forwards the uploaded file to `transcribe_media` unchanged. -/
def transcribe_audio_legacy (inp : UploadInput) : RunResult :=
  transcribe_media inp

/-! ## RemoteFetcher (`download_file_from_url`) -/

/-- Headers observed by the preliminary `requests.head` probe;
`headers.get(..., '')` defaults both to the empty string. -/
structure HeadInfo where
  contentDisposition : String
  contentType : String
  deriving DecidableEq

/-- The streaming `requests.get` response: whether `raise_for_status`
passes, the declared `content-length` (absent when the header is
missing), the byte sizes of the chunks yielded by `iter_content`, and
whether iteration raises a network error after the listed chunks. -/
structure GetResponse where
  okStatus : Bool
  contentLength : Option Nat
  chunks : List Nat
  bodyFails : Bool
  deriving DecidableEq

/-- Input of one `download_file_from_url` call: the URL's parsed path,
the outcome of the HEAD probe (`none` when the probe raises), and the
outcome of the streaming GET (`none` when the request itself raises). -/
structure FetchInput where
  urlPath : String
  head : Option HeadInfo
  get : Option GetResponse
  deriving DecidableEq

/-- Filename resolution of `download_file_from_url` (lines 158–183):
URL basename when it is nonempty and contains a dot; otherwise the HEAD
probe's `Content-Disposition` filename, else a content-type default,
else `media_file` (also used when the probe raises); finally `.mp4` is
appended when the resolved name has no dot. -/
def resolveFilename (urlPath : String) (head : Option HeadInfo) : String :=
  let base := pyBasename urlPath
  let name :=
    if base = "" || !(strHasChar base '.') then
      match head with
      | none => "media_file"
      | some h =>
        if strContains h.contentDisposition "filename=" then
          stripQuotes (strAfterFirst h.contentDisposition "filename=")
        else if strContains h.contentType "video" then "video_file.mp4"
        else if strContains h.contentType "audio" then "audio_file.mp3"
        else "media_file"
    else base
  if strHasChar name '.' then name else name ++ ".mp4"

/-- The chunk loop of `download_file_from_url` (lines 205–220): empty
chunks are skipped, each nonempty chunk first bumps the running total,
a total above `maxBytes` aborts with an error, otherwise the chunk is
written.  Returns the final byte count on success. -/
def streamLoop (maxBytes : Nat) (total : Nat) : List Nat → Except Unit Nat
  | [] => .ok total
  | c :: rest =>
    if c = 0 then streamLoop maxBytes total rest
    else if total + c > maxBytes then .error ()
    else streamLoop maxBytes (total + c) rest

/-- Result of `download_file_from_url`: the resolved filename or an HTTP
error status, plus the on-disk state of the temporary artifact. -/
structure FetchResult where
  result : Except Nat String
  artifactCreated : Bool
  artifactRemains : Bool
  deriving DecidableEq

/-- `content_length and int(content_length) > max_size_bytes` (line 194). -/
def declaredTooLarge (contentLength : Option Nat) (maxSizeBytes : Nat) : Bool :=
  match contentLength with
  | some n => maxSizeBytes < n
  | none => false

/-- `download_file_from_url` (lines 143–232): resolve the filename,
issue the streaming GET, reject a declared content-length above
`maxSizeBytes` before creating the temp file, then stream chunks into
the temp file with the running-total guard (which unlinks the partial
file on violation).  A network failure (request raising, non-2xx status,
or the body iterator raising) maps to HTTP 400; the body-iterator case
leaves the partial temp file on disk. -/
def download_file_from_url (inp : FetchInput) (maxSizeBytes : Nat) : FetchResult :=
  let fname := resolveFilename inp.urlPath inp.head
  match inp.get with
  | none => ⟨.error 400, false, false⟩
  | some resp =>
    if !resp.okStatus then ⟨.error 400, false, false⟩
    else if declaredTooLarge resp.contentLength maxSizeBytes then ⟨.error 413, false, false⟩
    else
      match streamLoop maxSizeBytes 0 resp.chunks with
      | .error _ => ⟨.error 413, true, false⟩
      | .ok _ =>
        if resp.bodyFails then ⟨.error 400, true, true⟩
        else ⟨.ok fname, true, true⟩

/-! ## URL pipeline (`transcribe_from_url`) -/

/-- Input of one `POST /transcribe/url/` invocation. -/
structure UrlInput where
  modelLoaded : Bool
  fetch : FetchInput
  maxFileSizeMb : Nat
  engine : Except String EngineResult
  deriving DecidableEq

/-- `transcribe_from_url` (lines 366–432): model check, download,
classification of the resolved filename, engine dispatch, response
construction; the `finally` block removes the downloaded file iff
`temp_file_path` was assigned (i.e. the download returned) and the path
still exists. -/
def transcribe_from_url (inp : UrlInput) : RunResult :=
  if !inp.modelLoaded then ⟨.error 503, false, false, 0⟩
  else
    let maxSizeBytes := inp.maxFileSizeMb * 1024 * 1024
    let f := download_file_from_url inp.fetch maxSizeBytes
    match f.result with
    | .error code =>
      -- download raised before returning: temp_file_path is unassigned, the
      -- finally block does nothing, the artifact stays as the fetch left it.
      ⟨.error code, f.artifactCreated, f.artifactRemains, 0⟩
    | .ok fname =>
      let file_type := get_file_type fname
      if file_type = "unknown" then ⟨.error 400, true, false, 0⟩
      else
        match inp.engine with
        | .error _ => ⟨.error 500, true, false, 1⟩
        | .ok r =>
          ⟨.ok { text := pyStrip r.text
                 language := r.language.getD "unknown"
                 confidence := computeConfidence r.segments
                 file_type := file_type
                 source := "url" }, true, false, 1⟩

example :
    resolveFilename "/file" (some ⟨"attachment; filename=\"talk.wav\"", ""⟩) = "talk.wav" := by
  decide

example : resolveFilename "/media/clip.mp4" none = "clip.mp4" := by decide
example : resolveFilename "/x" none = "media_file.mp4" := by decide
example : resolveFilename "/x" (some ⟨"", "video/mp4"⟩) = "video_file.mp4" := by decide
example : resolveFilename "/x" (some ⟨"", "audio/mpeg"⟩) = "audio_file.mp3" := by decide

/-! ## Theorems -/

/-- Case-insensitive comparison of two strings. -/
abbrev eqCaseInsensitive (a b : String) : Prop :=
  strToLower a = strToLower b

/-- C5: a filename whose final path suffix matches (case-insensitively) an
entry of the fixed audio extension set classifies as audio; one matching
the video set classifies as video; every other filename, the empty one
included, classifies as unknown. -/
theorem classify_by_suffix_table (f : String) :
    ((∃ e ∈ AUDIO_EXTENSIONS, eqCaseInsensitive (pySuffix f) e) → get_file_type f = "audio") ∧
    ((∃ e ∈ VIDEO_EXTENSIONS, eqCaseInsensitive (pySuffix f) e) → get_file_type f = "video") ∧
    ((¬ ∃ e ∈ AUDIO_EXTENSIONS, eqCaseInsensitive (pySuffix f) e) →
      (¬ ∃ e ∈ VIDEO_EXTENSIONS, eqCaseInsensitive (pySuffix f) e) →
      get_file_type f = "unknown") := by
  have hA : ∀ e ∈ AUDIO_EXTENSIONS, strToLower e = e := by decide
  have hV : ∀ e ∈ VIDEO_EXTENSIONS, strToLower e = e := by decide
  have hdisj : ∀ e ∈ VIDEO_EXTENSIONS, e ∉ AUDIO_EXTENSIONS := by decide
  refine ⟨?_, ?_, ?_⟩
  · rintro ⟨e, he, heq⟩
    have hx : strToLower (pySuffix f) = e := heq.trans (hA e he)
    simp only [get_file_type, hx, if_pos he]
  · rintro ⟨e, he, heq⟩
    have hx : strToLower (pySuffix f) = e := heq.trans (hV e he)
    simp only [get_file_type, hx, if_neg (hdisj e he), if_pos he]
  · intro hna hnv
    have h1 : strToLower (pySuffix f) ∉ AUDIO_EXTENSIONS := fun hmem =>
      hna ⟨strToLower (pySuffix f), hmem, (hA _ hmem).symm⟩
    have h2 : strToLower (pySuffix f) ∉ VIDEO_EXTENSIONS := fun hmem =>
      hnv ⟨strToLower (pySuffix f), hmem, (hV _ hmem).symm⟩
    simp only [get_file_type, if_neg h1, if_neg h2]

/-- Witness for C5 at concrete filenames. -/
theorem classify_by_suffix_table_witness :
    get_file_type "dir/Song.MP3" = "audio" ∧ get_file_type "clip.MKV" = "video" ∧
    get_file_type "" = "unknown" ∧ get_file_type "notes.txt" = "unknown" :=
  ⟨(classify_by_suffix_table "dir/Song.MP3").1 ⟨".mp3", by decide, by decide⟩,
   (classify_by_suffix_table "clip.MKV").2.1 ⟨".mkv", by decide, by decide⟩,
   (classify_by_suffix_table "").2.2 (by decide) (by decide),
   (classify_by_suffix_table "notes.txt").2.2 (by decide) (by decide)⟩

/-- When every segment carries a log-probability, the defaulted projection
used by the handlers coincides with the carried values. -/
theorem mapGetD_eq_filterMap (l : List EngineSegment)
    (h : ∀ s ∈ l, s.avg_logprob.isSome) :
    l.map (fun seg => seg.avg_logprob.getD 0) = l.filterMap EngineSegment.avg_logprob := by
  induction l with
  | nil => rfl
  | cons s rest ih =>
    obtain ⟨q, hq⟩ := Option.isSome_iff_exists.mp (h s (List.mem_cons_self s rest))
    simp [List.filterMap_cons, hq, ih (fun t ht => h t (List.mem_cons_of_mem _ ht))]

/-- C3: for an engine result with a non-empty list of segments all carrying
a log-probability, the derived confidence is exactly the arithmetic mean of
those values; with zero segments (empty or absent), confidence is absent. -/
theorem confidence_is_mean (segs : List EngineSegment) :
    (segs ≠ [] → (∀ s ∈ segs, s.avg_logprob.isSome) →
      computeConfidence (some segs) =
        some ((segs.filterMap EngineSegment.avg_logprob).sum /
              ((segs.filterMap EngineSegment.avg_logprob).length : ℚ))) ∧
    computeConfidence (some ([] : List EngineSegment)) = none ∧
    computeConfidence (none : Option (List EngineSegment)) = none := by
  refine ⟨?_, rfl, rfl⟩
  intro hne hall
  match segs, hne with
  | s :: rest, _ =>
    have hmap := mapGetD_eq_filterMap (s :: rest) hall
    simp only [computeConfidence, hmap]

/-- Witness for C3: log-probabilities `[-1/10, -3/10, -5/10]` yield
confidence `-3/10`. -/
theorem confidence_is_mean_witness :
    computeConfidence
      (some [⟨some (-1/10)⟩, ⟨some (-3/10)⟩, ⟨some (-5/10)⟩]) = some (-3/10) := by
  have h := (confidence_is_mean [⟨some (-1/10)⟩, ⟨some (-3/10)⟩, ⟨some (-5/10)⟩]).1
    (by decide) (by decide)
  rw [h]
  norm_num [List.filterMap_cons]

/-- The chunk loop aborts whenever the total size of the body exceeds the
ceiling, whatever the chunking. -/
theorem streamLoop_error_of_big (maxBytes : Nat) :
    ∀ (l : List Nat) (t : Nat), t ≤ maxBytes → maxBytes < t + l.sum →
      streamLoop maxBytes t l = .error () := by
  intro l
  induction l with
  | nil =>
    intro t ht hbig
    simp only [List.sum_nil, Nat.add_zero] at hbig
    omega
  | cons c rest ih =>
    intro t ht hbig
    simp only [List.sum_cons] at hbig
    by_cases hc : c = 0
    · subst hc
      simp only [streamLoop, if_pos rfl]
      exact ih t ht (by omega)
    · simp only [streamLoop, if_neg hc]
      by_cases hover : t + c > maxBytes
      · rw [if_pos hover]
      · rw [if_neg hover]
        exact ih (t + c) (by omega) (by omega)

/-- C2: whenever the running byte total of the streamed body exceeds
`maxSizeBytes`, `download_file_from_url` fails with HTTP 413 and the
partial artifact is removed from disk. -/
theorem fetch_aborts_when_stream_exceeds (inp : FetchInput) (maxSizeBytes : Nat)
    (resp : GetResponse) (hget : inp.get = some resp) (hok : resp.okStatus = true)
    (hcl : declaredTooLarge resp.contentLength maxSizeBytes = false)
    (hbig : maxSizeBytes < resp.chunks.sum) :
    (download_file_from_url inp maxSizeBytes).result = .error 413 ∧
    (download_file_from_url inp maxSizeBytes).artifactRemains = false := by
  have hloop := streamLoop_error_of_big maxSizeBytes resp.chunks 0 (Nat.zero_le _)
    (by simpa using hbig)
  simp [download_file_from_url, hget, hok, hcl, hloop]

/-- Witness for C2: a 600-byte body against a 500-byte ceiling. -/
theorem fetch_aborts_when_stream_exceeds_witness :
    (download_file_from_url ⟨"/a.mp3", none, some ⟨true, none, [400, 200], false⟩⟩ 500).result
        = .error 413 ∧
    (download_file_from_url ⟨"/a.mp3", none, some ⟨true, none, [400, 200], false⟩⟩
        500).artifactRemains = false :=
  fetch_aborts_when_stream_exceeds _ 500 ⟨true, none, [400, 200], false⟩
    rfl rfl rfl (by decide)

/-- C6: a declared `Content-Length` above the ceiling makes
`download_file_from_url` fail with HTTP 413 before the temporary artifact
is created (hence before any body byte is written). -/
theorem fetch_rejects_declared_length (inp : FetchInput) (maxSizeBytes : Nat)
    (resp : GetResponse) (n : Nat) (hget : inp.get = some resp)
    (hok : resp.okStatus = true) (hcl : resp.contentLength = some n)
    (hbig : maxSizeBytes < n) :
    (download_file_from_url inp maxSizeBytes).result = .error 413 ∧
    (download_file_from_url inp maxSizeBytes).artifactCreated = false := by
  have hd : declaredTooLarge resp.contentLength maxSizeBytes = true := by
    simp [declaredTooLarge, hcl, hbig]
  simp [download_file_from_url, hget, hok, hd]

/-- Witness for C6: `Content-Length: 600000000` against the 500 MB
(`524288000` byte) ceiling. -/
theorem fetch_rejects_declared_length_witness :
    (download_file_from_url ⟨"/a.mp3", none, some ⟨true, some 600000000, [], false⟩⟩
        524288000).result = .error 413 ∧
    (download_file_from_url ⟨"/a.mp3", none, some ⟨true, some 600000000, [], false⟩⟩
        524288000).artifactCreated = false :=
  fetch_rejects_declared_length _ 524288000 ⟨true, some 600000000, [], false⟩ 600000000
    rfl rfl rfl (by decide)

/-- C7: an upload whose staged byte length exceeds the ceiling selected by
its media kind is rejected with HTTP 413 after the stream has been staged
(the artifact was created), the artifact is gone when the call returns, the
engine is never invoked, and the audio ceiling is strictly below the video
ceiling. -/
theorem upload_rejects_oversize (inp : UploadInput)
    (hm : inp.modelLoaded = true) (hf : inp.filename ≠ "")
    (hk : get_file_type inp.filename ≠ "unknown") (hc : inp.copyFails = false)
    (hbig : uploadMaxSize (get_file_type inp.filename) < inp.fileSize) :
    (transcribe_media inp).response = .error 413 ∧
    (transcribe_media inp).artifactCreated = true ∧
    (transcribe_media inp).artifactRemains = false ∧
    (transcribe_media inp).engineCalls = 0 ∧
    uploadMaxSize "audio" < uploadMaxSize "video" := by
  refine ⟨?_, ?_, ?_, ?_, by decide⟩ <;>
    simp [transcribe_media, transcribe_media_body, hm, hf, hk, hc, hbig]

/-- Witness for C7: a 100 MB + 1 byte audio upload. -/
theorem upload_rejects_oversize_witness :
    (transcribe_media ⟨true, "talk.mp3", false, 104857601, .ok ⟨"", none, none⟩⟩).response
        = .error 413 ∧
    (transcribe_media ⟨true, "talk.mp3", false, 104857601,
        .ok ⟨"", none, none⟩⟩).artifactCreated = true ∧
    (transcribe_media ⟨true, "talk.mp3", false, 104857601,
        .ok ⟨"", none, none⟩⟩).artifactRemains = false ∧
    (transcribe_media ⟨true, "talk.mp3", false, 104857601,
        .ok ⟨"", none, none⟩⟩).engineCalls = 0 ∧
    uploadMaxSize "audio" < uploadMaxSize "video" :=
  upload_rejects_oversize ⟨true, "talk.mp3", false, 104857601, .ok ⟨"", none, none⟩⟩
    rfl (by decide) (by decide) rfl (by decide)

/-- C1 fails on the code: when the staging copy itself raises (client
disconnect or disk failure mid-`copyfileobj`), the upload handler has
already created the temp file but `temp_media_path` is assigned only after
a successful copy, so the `finally` block removes nothing and the artifact
survives the call; the URL handler leaks likewise when the body iterator
raises mid-download (`download_file_from_url` maps it to HTTP 400 without
unlinking, and the caller's `temp_file_path` is still unassigned). -/
theorem staged_artifact_leaks_on_midcopy_failure :
    ((transcribe_media ⟨true, "voice.mp3", true, 0, .ok ⟨"", none, none⟩⟩).artifactCreated
        = true ∧
     (transcribe_media ⟨true, "voice.mp3", true, 0, .ok ⟨"", none, none⟩⟩).response
        = .error 500 ∧
     (transcribe_media ⟨true, "voice.mp3", true, 0, .ok ⟨"", none, none⟩⟩).artifactRemains
        = true) ∧
    ((transcribe_from_url ⟨true, ⟨"/a.mp3", none, some ⟨true, none, [10], true⟩⟩, 500,
        .ok ⟨"", none, none⟩⟩).artifactCreated = true ∧
     (transcribe_from_url ⟨true, ⟨"/a.mp3", none, some ⟨true, none, [10], true⟩⟩, 500,
        .ok ⟨"", none, none⟩⟩).response = .error 400 ∧
     (transcribe_from_url ⟨true, ⟨"/a.mp3", none, some ⟨true, none, [10], true⟩⟩, 500,
        .ok ⟨"", none, none⟩⟩).artifactRemains = true) := by
  decide

/-- C4 as stated is false: on the URL path the artifact is downloaded
before classification, so a request whose resolved filename classifies as
unknown has already created a staged artifact when it is rejected. -/
theorem url_unknown_still_stages :
    get_file_type (resolveFilename "/doc.txt" none) = "unknown" ∧
    (transcribe_from_url ⟨true, ⟨"/doc.txt", none, some ⟨true, none, [5], false⟩⟩, 500,
        .ok ⟨"", none, none⟩⟩).response = .error 400 ∧
    (transcribe_from_url ⟨true, ⟨"/doc.txt", none, some ⟨true, none, [5], false⟩⟩, 500,
        .ok ⟨"", none, none⟩⟩).artifactCreated = true := by
  decide

/-- C4 amended: an upload classified unknown is rejected with HTTP 400
before any staging; a URL request whose resolved filename classifies
unknown is also rejected with HTTP 400, and the artifact that was already
downloaded is removed before the call returns. -/
theorem unknown_is_rejected (inp : UploadInput) (u : UrlInput) (fname : String) :
    (inp.modelLoaded = true → inp.filename ≠ "" →
      get_file_type inp.filename = "unknown" →
      (transcribe_media inp).response = .error 400 ∧
      (transcribe_media inp).artifactCreated = false) ∧
    (u.modelLoaded = true →
      (download_file_from_url u.fetch (u.maxFileSizeMb * 1024 * 1024)).result = .ok fname →
      get_file_type fname = "unknown" →
      (transcribe_from_url u).response = .error 400 ∧
      (transcribe_from_url u).artifactRemains = false) := by
  constructor
  · intro hm hf hk
    constructor <;> simp [transcribe_media, transcribe_media_body, hm, hf, hk]
  · intro hm hres hk
    constructor <;> simp [transcribe_from_url, hm, hres, hk]

/-- Witness for the amended C4: `notes.txt` upload and a URL resolving to
`doc.txt`. -/
theorem unknown_is_rejected_witness :
    ((transcribe_media ⟨true, "notes.txt", false, 3, .ok ⟨"", none, none⟩⟩).response
        = .error 400 ∧
     (transcribe_media ⟨true, "notes.txt", false, 3,
        .ok ⟨"", none, none⟩⟩).artifactCreated = false) ∧
    ((transcribe_from_url ⟨true, ⟨"/doc.txt", none, some ⟨true, none, [5], false⟩⟩, 500,
        .ok ⟨"", none, none⟩⟩).response = .error 400 ∧
     (transcribe_from_url ⟨true, ⟨"/doc.txt", none, some ⟨true, none, [5], false⟩⟩, 500,
        .ok ⟨"", none, none⟩⟩).artifactRemains = false) :=
  ⟨(unknown_is_rejected ⟨true, "notes.txt", false, 3, .ok ⟨"", none, none⟩⟩
      ⟨true, ⟨"/doc.txt", none, some ⟨true, none, [5], false⟩⟩, 500, .ok ⟨"", none, none⟩⟩
      "doc.txt").1 rfl (by decide) (by decide),
   (unknown_is_rejected ⟨true, "notes.txt", false, 3, .ok ⟨"", none, none⟩⟩
      ⟨true, ⟨"/doc.txt", none, some ⟨true, none, [5], false⟩⟩, 500, .ok ⟨"", none, none⟩⟩
      "doc.txt").2 rfl (by decide) (by decide)⟩

/-- An upload run reaches the dispatch state: model loaded, filename
present and classified, staging copy succeeded, staged size within the
ceiling for its kind. -/
def uploadReachesDispatch (inp : UploadInput) : Prop :=
  inp.modelLoaded = true ∧ inp.filename ≠ "" ∧
  get_file_type inp.filename ≠ "unknown" ∧ inp.copyFails = false ∧
  inp.fileSize ≤ uploadMaxSize (get_file_type inp.filename)

/-- A URL run reaches the dispatch state: model loaded, download returned
a filename, and that filename classifies as audio or video. -/
def urlReachesDispatch (u : UrlInput) : Prop :=
  u.modelLoaded = true ∧
  ∃ fname, (download_file_from_url u.fetch (u.maxFileSizeMb * 1024 * 1024)).result = .ok fname ∧
    get_file_type fname ≠ "unknown"

/-- C9: on both pipelines the engine is invoked at most once per run (so a
failed invocation is never retried), exactly once on the runs that reach
the dispatch state, and never on the runs that do not. -/
theorem engine_invoked_exactly_once_at_dispatch :
    (∀ inp : UploadInput, (transcribe_media inp).engineCalls ≤ 1 ∧
      (uploadReachesDispatch inp → (transcribe_media inp).engineCalls = 1) ∧
      (¬ uploadReachesDispatch inp → (transcribe_media inp).engineCalls = 0)) ∧
    (∀ u : UrlInput, (transcribe_from_url u).engineCalls ≤ 1 ∧
      (urlReachesDispatch u → (transcribe_from_url u).engineCalls = 1) ∧
      (¬ urlReachesDispatch u → (transcribe_from_url u).engineCalls = 0)) := by
  constructor
  · intro inp
    obtain ⟨ml, fn, cf, fs, eng⟩ := inp
    simp only [uploadReachesDispatch, transcribe_media, transcribe_media_body]
    cases ml <;> simp
    by_cases hf : fn = "" <;> simp [hf]
    by_cases hk : get_file_type fn = "unknown" <;> simp [hk]
    cases cf <;> simp
    · by_cases hs : fs > uploadMaxSize (get_file_type fn)
      · simp [hs]
      · simp [hs]
        cases eng <;> simp
  · intro u
    obtain ⟨ml, fetch, mb, eng⟩ := u
    simp only [urlReachesDispatch, transcribe_from_url]
    cases ml <;> simp
    cases hres : (download_file_from_url fetch (mb * 1024 * 1024)).result with
    | error code => simp
    | ok fname =>
      simp only
      by_cases hk : get_file_type fname = "unknown"
      · simp [hk]
      · simp only [hk, if_neg]
        cases eng <;> simp [hk]

/-- Witness for C9 at concrete runs: a successful upload dispatches once,
one rejected before staging dispatches zero times, a successful URL run
dispatches once, and a URL run without a loaded model dispatches zero
times. -/
theorem engine_invoked_exactly_once_at_dispatch_witness :
    (transcribe_media ⟨true, "talk.mp3", false, 3, .ok ⟨"hi", some "en", none⟩⟩).engineCalls
        = 1 ∧
    (transcribe_media ⟨true, "notes.txt", false, 3, .ok ⟨"", none, none⟩⟩).engineCalls = 0 ∧
    (transcribe_from_url ⟨true, ⟨"/a.mp3", none, some ⟨true, none, [5], false⟩⟩, 500,
        .ok ⟨"hi", some "en", none⟩⟩).engineCalls = 1 ∧
    (transcribe_from_url ⟨false, ⟨"/a.mp3", none, none⟩, 500,
        .ok ⟨"", none, none⟩⟩).engineCalls = 0 :=
  ⟨(engine_invoked_exactly_once_at_dispatch.1
      ⟨true, "talk.mp3", false, 3, .ok ⟨"hi", some "en", none⟩⟩).2.1
      ⟨rfl, by decide, by decide, rfl, by decide⟩,
   (engine_invoked_exactly_once_at_dispatch.1
      ⟨true, "notes.txt", false, 3, .ok ⟨"", none, none⟩⟩).2.2
      (fun h => h.2.2.1 (by decide)),
   (engine_invoked_exactly_once_at_dispatch.2
      ⟨true, ⟨"/a.mp3", none, some ⟨true, none, [5], false⟩⟩, 500,
        .ok ⟨"hi", some "en", none⟩⟩).2.1 ⟨rfl, "a.mp3", by decide, by decide⟩,
   (engine_invoked_exactly_once_at_dispatch.2
      ⟨false, ⟨"/a.mp3", none, none⟩, 500, .ok ⟨"", none, none⟩⟩).2.2
      (fun h => by exact absurd h.1 (by decide))⟩

/-- C10: the legacy audio endpoint forwards its upload to the main upload
handler unchanged, so the two are the same function of the uploaded file. -/
theorem legacy_audio_equals_main (inp : UploadInput) :
    transcribe_audio_legacy inp = transcribe_media inp := rfl

/-- Append the default video extension when the name carries no dot. -/
def ensureExtension (name : String) : String :=
  if strHasChar name '.' then name else name ++ ".mp4"

/-- C8: the resolved filename follows the ordered strategy — (a) the last
URL path segment when it contains a suffix (a dot); else (b) the
`Content-Disposition` filename of the metadata probe; else (c) a default
video or audio name from the declared content type; else (d) the generic
fallback, also used when the probe raises (its failure never aborts the
resolution); and a name without an extension gets `.mp4` appended. -/
theorem filename_resolution_order (urlPath : String) (head : Option HeadInfo) :
    (pyBasename urlPath ≠ "" → strHasChar (pyBasename urlPath) '.' = true →
      resolveFilename urlPath head = pyBasename urlPath) ∧
    (∀ h, (pyBasename urlPath = "" ∨ strHasChar (pyBasename urlPath) '.' = false) →
      head = some h → strContains h.contentDisposition "filename=" = true →
      resolveFilename urlPath head =
        ensureExtension (stripQuotes (strAfterFirst h.contentDisposition "filename="))) ∧
    (∀ h, (pyBasename urlPath = "" ∨ strHasChar (pyBasename urlPath) '.' = false) →
      head = some h → strContains h.contentDisposition "filename=" = false →
      strContains h.contentType "video" = true →
      resolveFilename urlPath head = "video_file.mp4") ∧
    (∀ h, (pyBasename urlPath = "" ∨ strHasChar (pyBasename urlPath) '.' = false) →
      head = some h → strContains h.contentDisposition "filename=" = false →
      strContains h.contentType "video" = false →
      strContains h.contentType "audio" = true →
      resolveFilename urlPath head = "audio_file.mp3") ∧
    (∀ h, (pyBasename urlPath = "" ∨ strHasChar (pyBasename urlPath) '.' = false) →
      head = some h → strContains h.contentDisposition "filename=" = false →
      strContains h.contentType "video" = false →
      strContains h.contentType "audio" = false →
      resolveFilename urlPath head = "media_file.mp4") ∧
    ((pyBasename urlPath = "" ∨ strHasChar (pyBasename urlPath) '.' = false) →
      head = none → resolveFilename urlPath head = "media_file.mp4") := by
  have hcase : ∀ P : Prop, (pyBasename urlPath = "" ∨ strHasChar (pyBasename urlPath) '.' = false) →
      ((pyBasename urlPath = "" || !strHasChar (pyBasename urlPath) '.') = true → P) → P := by
    rintro P (hb | hb) hk
    · exact hk (by simp [hb])
    · exact hk (by simp [hb])
  refine ⟨?_, ?_, ?_, ?_, ?_, ?_⟩
  · intro hne hdot
    have hcond : (pyBasename urlPath = "" || !strHasChar (pyBasename urlPath) '.') = false := by
      simp [hne, hdot]
    simp [resolveFilename, hcond, hdot, hne]
  · intro h hor hhead hcd
    refine hcase _ hor (fun hcond => ?_)
    simp [resolveFilename, ensureExtension, hcond, hhead, hcd]
  · intro h hor hhead hcd hv
    refine hcase _ hor (fun hcond => ?_)
    simp [resolveFilename, hcond, hhead, hcd, hv]
    decide
  · intro h hor hhead hcd hv ha
    refine hcase _ hor (fun hcond => ?_)
    simp [resolveFilename, hcond, hhead, hcd, hv, ha]
    decide
  · intro h hor hhead hcd hv ha
    refine hcase _ hor (fun hcond => ?_)
    simp [resolveFilename, hcond, hhead, hcd, hv, ha]
    decide
  · intro hor hhead
    refine hcase _ hor (fun hcond => ?_)
    simp [resolveFilename, hcond, hhead]
    decide

/-- Witness for C8: `https://host/file` (no suffix) with
`Content-Disposition: filename="talk.wav"` resolves to `talk.wav`,
which classifies as audio. -/
theorem filename_resolution_order_witness :
    resolveFilename "/file" (some ⟨"attachment; filename=\"talk.wav\"", ""⟩) = "talk.wav" ∧
    get_file_type "talk.wav" = "audio" :=
  ⟨((filename_resolution_order "/file"
      (some ⟨"attachment; filename=\"talk.wav\"", ""⟩)).2.1
      ⟨"attachment; filename=\"talk.wav\"", ""⟩ (Or.inr (by decide)) rfl
      (by decide)).trans (by decide),
   by decide⟩

end Transcribe
